import Mathlib

/-!
Verification of the CareLink client capture-record-detect-speak workflow.

The definitions below are a shallow embedding of the SignDetector component
(camera acquisition, 3-second clip recording, detection submission, result
vocalization) and of the SignLanguageAPI fetch wrappers.  Network I/O is made
explicit: every fetch round trip is represented by a `FetchOutcome` value that
records whether the transport failed, the HTTP success flag of the response,
and the parse result of the body.  React component state becomes an explicit
`Session` record, and the user-and-event-driven behaviour becomes a step
function on sessions.
-/

namespace CareLink

/-- Outcome of one fetch round trip, as observed by the client: either the
promise rejected at the network level, or a response arrived with an HTTP
success flag (response.ok) and a body whose JSON parse either failed (`none`)
or produced a value of the endpoint's shape (`some`). -/
inductive FetchOutcome (α : Type) where
  | networkError : FetchOutcome α
  | response (ok : Bool) (body : Option α) : FetchOutcome α
  deriving DecidableEq, Repr

/-- Parsed body of POST /detect.  Only the fields the client reads are
modelled; `timestamp` and the floating-point `processing_time` are never
consulted by the client code.  Note the client reads only `result`; the
`success` flag is carried but ignored. -/
structure DetectionResponse where
  result : String
  success : Bool
  deriving DecidableEq, Repr

/-- Parsed body of GET /health.  The client reads only `status`; a body that
parses as JSON but lacks the field is modelled by `none` (undefined). -/
structure HealthBody where
  status : Option String
  deriving DecidableEq, Repr

/-- Parsed body of GET /supported-signs.  The client reads only `signs`; a
body that parses as JSON but lacks the field is modelled by `none`
(undefined). -/
structure SupportedSignsBody where
  signs : Option (List String)
  deriving DecidableEq, Repr

/-- Errors thrown by SignLanguageAPI.detectSign: the explicit throw on a
non-ok response, a rejected json() parse, or a rejected fetch. -/
inductive DetectionErr where
  | transport : DetectionErr
  | malformed : DetectionErr
  | network : DetectionErr
  deriving DecidableEq, Repr

/-- SignLanguageAPI.detectSign: posts the clip, throws on a non-ok status
before attempting to parse, otherwise returns the parsed body (a parse
failure propagates as a thrown error). -/
def SignLanguageAPI.detectSign :
    FetchOutcome DetectionResponse → Except DetectionErr DetectionResponse
  | .networkError => .error .network
  | .response ok body =>
      if ok then
        match body with
        | some d => .ok d
        | none => .error .malformed
      else .error .transport

/-- SignLanguageAPI.checkHealth: fetches /health, parses the body and returns
whether data.status === "healthy"; any thrown error (transport or parse) is
caught and yields false.  The HTTP status code of the response is never
examined. -/
def SignLanguageAPI.checkHealth : FetchOutcome HealthBody → Bool
  | .networkError => false
  | .response _ body =>
      match body with
      | none => false
      | some b => b.status == some "healthy"

/-- SignLanguageAPI.getSupportedSigns: fetches /supported-signs, parses the
body and returns data.signs; any thrown error (transport or parse) is caught
and yields the empty list.  The HTTP status code is never examined, and when
the body parses the signs field is returned as-is: a missing field yields the
undefined value (`none`), not the empty list. -/
def SignLanguageAPI.getSupportedSigns :
    FetchOutcome SupportedSignsBody → Option (List String)
  | .networkError => some []
  | .response _ body =>
      match body with
      | none => some []
      | some b => b.signs

/-- The fixed failure string written to the result field by the component
when detection fails for any reason. -/
def detectionFailureText : String := "Detection failed - check backend connection"

/-- React state of the SignDetector component, together with instrumentation
fields that make side effects observable: `streamBound` mirrors
videoRef.current.srcObject being non-null, `activeRecorders` counts
MediaRecorder objects currently in the recording state, `recordersCreated`
counts MediaRecorder constructions, and `detectCalls` counts detect HTTP
round trips.  `apiHealth` is the tri-state BackendHealth: `none` is Unknown,
`some true` is Up, `some false` is Down. -/
structure Session where
  result : String
  isRecording : Bool
  isProcessing : Bool
  isCameraActive : Bool
  isSpeaking : Bool
  apiHealth : Option Bool
  supportedSigns : List String
  streamBound : Bool
  activeRecorders : Nat
  recordersCreated : Nat
  detectCalls : Nat
  deriving DecidableEq, Repr

/-- Initial component state: empty result, all flags false, health unknown. -/
def initSession : Session :=
  { result := ""
    isRecording := false
    isProcessing := false
    isCameraActive := false
    isSpeaking := false
    apiHealth := none
    supportedSigns := []
    streamBound := false
    activeRecorders := 0
    recordersCreated := 0
    detectCalls := 0 }

/-- The component's detectSign handler, given the outcome of its single HTTP
round trip.  It sets isProcessing while the call is in flight and clears it
in a finally block, so the final value is false; on success it stores the
backend's result text and marks health Up; on any thrown error it stores the
fixed failure string and marks health Down.  Exactly one HTTP call is made
per invocation (detectCalls grows by one, with no retry loop). -/
def detectSignSession (s : Session) (o : FetchOutcome DetectionResponse) : Session :=
  let d := SignLanguageAPI.detectSign o
  { s with
    isProcessing := false
    detectCalls := s.detectCalls + 1
    result :=
      match d with
      | .ok r => r.result
      | .error _ => detectionFailureText
    apiHealth :=
      some (match d with
            | .ok _ => true
            | .error _ => false) }

/-- A detect round trip succeeds exactly when the response has an ok status
and its body parses. -/
def detectSucceeds : FetchOutcome DetectionResponse → Bool
  | .response true (some _) => true
  | _ => false

/-- MediaRecorder.state as the client consults it: recording or not. -/
inductive MRState where
  | recording : MRState
  | inactive : MRState
  deriving DecidableEq, Repr

/-- A MediaRecorder together with its fragment buffer (chunksRef, fragment
sizes) and a count of stop() calls issued to it. -/
structure MRecorder where
  state : MRState
  chunks : List Nat
  stopsIssued : Nat
  deriving DecidableEq, Repr

/-- A recorder right after mediaRecorder.start(): recording, empty buffer. -/
def mkStartedRecorder : MRecorder :=
  { state := .recording, chunks := [], stopsIssued := 0 }

/-- The literal delay passed to setTimeout in startRecording. -/
def autoStopDelayMs : Nat := 3000

/-- Events delivered to a recorder: an ondataavailable callback carrying a
fragment of some size, or the firing of the auto-stop timer scheduled
`autoStopDelayMs` after start. -/
inductive RecEvent where
  | dataAvailable (size : Nat) : RecEvent
  | autoStopTimer : RecEvent
  deriving DecidableEq, Repr

/-- One recorder event: ondataavailable appends the fragment when its size is
positive; the timer callback calls stop() only when the recorder is still in
the recording state, so an already-stopped recorder is left untouched. -/
def recStep (r : MRecorder) : RecEvent → MRecorder
  | .dataAvailable n =>
      if 0 < n then { r with chunks := r.chunks ++ [n] } else r
  | .autoStopTimer =>
      if r.state = .recording then
        { r with state := .inactive, stopsIssued := r.stopsIssued + 1 }
      else r

/-- Run a recorder through a sequence of events in delivery order. -/
def recRun (r : MRecorder) (evs : List RecEvent) : MRecorder :=
  evs.foldl recStep r

/-- State touched by startCamera: the stream bound to the preview element,
the set of streams the device has handed out that are still live (no code in
the component ever stops a track), the cameraActive flag, and a supply of
fresh stream identities for getUserMedia. -/
structure CameraState where
  boundStream : Option Nat
  liveStreams : List Nat
  cameraActive : Bool
  nextStreamId : Nat
  deriving DecidableEq, Repr

/-- Camera state before any acquisition. -/
def camInit : CameraState :=
  { boundStream := none, liveStreams := [], cameraActive := false, nextStreamId := 0 }

/-- The success path of startCamera: getUserMedia resolves with a fresh live
stream, which is assigned to videoRef.current.srcObject, and cameraActive is
set.  No track of any previously acquired stream is stopped anywhere in the
component, so prior streams stay live. -/
def startCamera (c : CameraState) : CameraState :=
  { boundStream := some c.nextStreamId
    liveStreams := c.liveStreams ++ [c.nextStreamId]
    cameraActive := true
    nextStreamId := c.nextStreamId + 1 }

/-- Outcome of the OpenAI text-to-speech fetch: rejected at the network
level, or a response with an HTTP success flag. -/
inductive TTSOutcome where
  | networkError : TTSOutcome
  | response (ok : Bool) : TTSOutcome
  deriving DecidableEq, Repr

/-- Observable side effects of one speakResult invocation: number of TTS
fetches issued, number of cloud audio playbacks started, the texts handed to
the local speechSynthesis facility, the sequence of assignments to the
isSpeaking flag in order, and the number of errors surfaced to the user. -/
structure SpeakEffect where
  ttsCalls : Nat
  cloudPlays : Nat
  localUtterances : List String
  speakingWrites : List Bool
  errorsSurfaced : Nat
  deriving DecidableEq, Repr

/-- The absence of any speech side effect. -/
def noSpeakEffect : SpeakEffect :=
  { ttsCalls := 0, cloudPlays := 0, localUtterances := [], speakingWrites := [], errorsSurfaced := 0 }

/-- The component's speakResult handler.  An empty result returns before any
state change or network call.  Otherwise isSpeaking is set, one TTS fetch is
issued, a successful response plays the returned audio, a non-ok response or
a thrown network error falls back to the local speechSynthesis facility with
the same text when the facility exists (and silently does nothing when it
does not), no error is ever surfaced to the user, and a finally block clears
isSpeaking on every exit path. -/
def speakResult (s : Session) (tts : TTSOutcome) (synthAvailable : Bool) :
    Session × SpeakEffect :=
  if s.result = "" then (s, noSpeakEffect)
  else
    let fallbackUtterances : List String := if synthAvailable then [s.result] else []
    let eff : SpeakEffect :=
      match tts with
      | .response true =>
          { ttsCalls := 1, cloudPlays := 1, localUtterances := [],
            speakingWrites := [true, false], errorsSurfaced := 0 }
      | .response false =>
          { ttsCalls := 1, cloudPlays := 0, localUtterances := fallbackUtterances,
            speakingWrites := [true, false], errorsSurfaced := 0 }
      | .networkError =>
          { ttsCalls := 1, cloudPlays := 0, localUtterances := fallbackUtterances,
            speakingWrites := [true, false], errorsSurfaced := 0 }
    ({ s with isSpeaking := false }, eff)

/-- The disabled attribute of the record button:
!isCameraActive || isRecording || isProcessing. -/
def recordDisabled (s : Session) : Bool :=
  !s.isCameraActive || s.isRecording || s.isProcessing

/-- The body of startRecording: an early return when no stream is bound to
the preview element; otherwise a fresh MediaRecorder is constructed and
started and isRecording is set. -/
def startRecordingSession (s : Session) : Session :=
  if !s.streamBound then s
  else
    { s with
      isRecording := true
      activeRecorders := s.activeRecorders + 1
      recordersCreated := s.recordersCreated + 1 }

/-- Events driving the session: a successful startCamera, a click on the
record button (which does nothing while the button is disabled), the firing
of the auto-stop timer (whose callback stops the recorder only if it is still
recording), the onstop handler entering detectSign (detection goes in
flight), the completion of a detect round trip, and a speakResult run. -/
inductive SessionEvent where
  | cameraOk : SessionEvent
  | clickRecord : SessionEvent
  | autoStopTimer : SessionEvent
  | recorderStopped : SessionEvent
  | detectRun (o : FetchOutcome DetectionResponse) : SessionEvent
  | speakRun (tts : TTSOutcome) (synthAvailable : Bool) : SessionEvent

/-- The session step function tying the handlers above to their triggering
events. -/
def sessionStep (s : Session) : SessionEvent → Session
  | .cameraOk => { s with streamBound := true, isCameraActive := true }
  | .clickRecord => if recordDisabled s then s else startRecordingSession s
  | .autoStopTimer =>
      if s.activeRecorders ≠ 0 then
        { s with activeRecorders := s.activeRecorders - 1, isRecording := false }
      else s
  | .recorderStopped => { s with isProcessing := true }
  | .detectRun o => detectSignSession s o
  | .speakRun tts synthAvailable => (speakResult s tts synthAvailable).1

/-- Session states reachable from the initial component state through the
program's events. -/
inductive ReachableSession : Session → Prop where
  | init : ReachableSession initSession
  | step {s : Session} (e : SessionEvent) (h : ReachableSession s) :
      ReachableSession (sessionStep s e)

/-- Coupling invariant between the isRecording flag and the number of
MediaRecorder objects currently recording. -/
def recorderInv (s : Session) : Prop :=
  s.activeRecorders = if s.isRecording then 1 else 0

theorem recStep_data_state (r : MRecorder) (n : Nat) :
    (recStep r (.dataAvailable n)).state = r.state := by
  simp only [recStep]
  split <;> rfl

theorem recRun_data_state (frags : List Nat) :
    ∀ r : MRecorder, (recRun r (frags.map RecEvent.dataAvailable)).state = r.state := by
  induction frags with
  | nil => intro r; rfl
  | cons a as ih =>
      intro r
      have h1 : recRun r ((a :: as).map RecEvent.dataAvailable)
          = recRun (recStep r (.dataAvailable a)) (as.map RecEvent.dataAvailable) := rfl
      rw [h1, ih, recStep_data_state]

theorem recorderInv_init : recorderInv initSession := by
  simp [recorderInv, initSession]

theorem recorderInv_step (s : Session) (e : SessionEvent) (h : recorderInv s) :
    recorderInv (sessionStep s e) := by
  cases e with
  | cameraOk => simpa [recorderInv, sessionStep] using h
  | clickRecord =>
      simp only [sessionStep]
      by_cases hd : recordDisabled s = true
      · simpa [hd] using h
      · have hd2 : recordDisabled s = false := by simpa using hd
        simp only [recordDisabled, Bool.or_eq_false_iff] at hd2
        have hrec : s.isRecording = false := hd2.1.2
        rw [if_neg hd]
        simp only [startRecordingSession]
        by_cases hb : s.streamBound = true
        · rw [recorderInv, hrec] at h
          simp [recorderInv, hb, h]
        · have hb2 : s.streamBound = false := by simpa using hb
          simpa [recorderInv, hb2] using h
  | autoStopTimer =>
      simp only [sessionStep]
      by_cases hn : s.activeRecorders ≠ 0
      · cases hrec : s.isRecording with
        | false =>
            rw [recorderInv, hrec] at h
            simp only [if_neg Bool.false_ne_true] at h
            exact absurd h hn
        | true =>
            rw [recorderInv, hrec] at h
            simp only [if_pos rfl] at h
            simp [recorderInv, hn, h]
      · simpa [hn] using h
  | recorderStopped => simpa [recorderInv, sessionStep] using h
  | detectRun o => simpa [recorderInv, sessionStep, detectSignSession] using h
  | speakRun tts synthAvailable =>
      simp only [sessionStep]
      by_cases hr : s.result = ""
      · simpa [speakResult, hr] using h
      · simpa [speakResult, hr, recorderInv] using h

theorem reachable_recorderInv (s : Session) (h : ReachableSession s) : recorderInv s := by
  induction h with
  | init => exact recorderInv_init
  | step e _ ih => exact recorderInv_step _ e ih

/-- Claim C1: for every completed detectSign call, if the HTTP detect round
trip succeeds and the body parses, the session's result field is set to
exactly the backend's result text (and health to Up); if the call fails for
any reason — network error, non-success HTTP status, or parse failure — the
result field is set to the one fixed failure string and BackendHealth flips
to Down; and every invocation issues exactly one HTTP call, so no retry is
performed. -/
theorem detectSign_result_and_health :
    (∀ (s : Session) (d : DetectionResponse),
        (detectSignSession s (.response true (some d))).result = d.result ∧
        (detectSignSession s (.response true (some d))).apiHealth = some true) ∧
    (∀ (s : Session) (o : FetchOutcome DetectionResponse),
        detectSucceeds o = false →
        (detectSignSession s o).result = detectionFailureText ∧
        (detectSignSession s o).apiHealth = some false) ∧
    (∀ (s : Session) (o : FetchOutcome DetectionResponse),
        (detectSignSession s o).detectCalls = s.detectCalls + 1) := by
  refine ⟨fun s d => ⟨rfl, rfl⟩, fun s o h => ?_, fun s o => rfl⟩
  cases o with
  | networkError => exact ⟨rfl, rfl⟩
  | response ok body =>
      cases ok with
      | false => exact ⟨rfl, rfl⟩
      | true =>
          cases body with
          | none => exact ⟨rfl, rfl⟩
          | some d => simp [detectSucceeds] at h

/-- Witness for C1 at concrete inputs: a successful round trip returning
"I want water" stores that text with health Up, an HTTP failure stores the
fixed failure string with health Down, and each makes exactly one call. -/
theorem detectSign_result_and_health_witness :
    (detectSignSession initSession (.response true (some ⟨"I want water", true⟩))).result
      = "I want water" ∧
    (detectSignSession initSession (.response false none)).result = detectionFailureText ∧
    (detectSignSession initSession (.response false none)).apiHealth = some false ∧
    (detectSignSession initSession (.response false none)).detectCalls
      = initSession.detectCalls + 1 :=
  ⟨(detectSign_result_and_health.1 initSession ⟨"I want water", true⟩).1,
   (detectSign_result_and_health.2.1 initSession (.response false none) (by decide)).1,
   (detectSign_result_and_health.2.1 initSession (.response false none) (by decide)).2,
   detectSign_result_and_health.2.2 initSession (.response false none)⟩

/-- Claim C2: for every detect call and every prior BackendHealth value
(Unknown, Up or Down — the session argument ranges over all of them),
BackendHealth reads Up immediately after the call when it succeeded and Down
when it failed; the update is a field of the resulting session state, a side
effect beyond the returned result text. -/
theorem detect_updates_backendHealth :
    ∀ (s : Session) (o : FetchOutcome DetectionResponse),
      (detectSignSession s o).apiHealth = some (detectSucceeds o) := by
  intro s o
  cases o with
  | networkError => rfl
  | response ok body => cases ok <;> cases body <;> rfl

/-- Claim C3: the auto-stop timer is scheduled exactly 3000 ms after
recording starts, and when it fires the recorder is stopped no matter how
many fragments were buffered in the meantime, including zero — so the
recording reaches the stopped state no later than 3000 ms (modulo scheduler
jitter) after entering the recording state; moreover the timer callback
issues its stop only when the recorder is still recording, so an
already-stopped recorder is never stopped twice. -/
theorem autoStop_timer_stops_recording :
    autoStopDelayMs = 3000 ∧
    (∀ frags : List Nat,
        (recRun mkStartedRecorder
          (frags.map RecEvent.dataAvailable ++ [RecEvent.autoStopTimer])).state
          = MRState.inactive) ∧
    (∀ r : MRecorder, r.state ≠ MRState.recording →
        recStep r RecEvent.autoStopTimer = r) := by
  refine ⟨rfl, fun frags => ?_, fun r h => ?_⟩
  · have h1 : recRun mkStartedRecorder
        (frags.map RecEvent.dataAvailable ++ [RecEvent.autoStopTimer])
        = recStep (recRun mkStartedRecorder (frags.map RecEvent.dataAvailable))
            RecEvent.autoStopTimer := by
      simp [recRun, List.foldl_append]
    have h2 : (recRun mkStartedRecorder (frags.map RecEvent.dataAvailable)).state
        = MRState.recording := recRun_data_state frags mkStartedRecorder
    rw [h1]
    simp [recStep, h2]
  · simp [recStep, h]

/-- Witness for C3 at concrete inputs: with zero fragments buffered the timer
leaves the recorder stopped, and a timer firing on an already-stopped
recorder changes nothing (no second stop). -/
theorem autoStop_timer_stops_recording_witness :
    (recRun mkStartedRecorder
      (([] : List Nat).map RecEvent.dataAvailable ++ [RecEvent.autoStopTimer])).state
      = MRState.inactive ∧
    recStep { state := MRState.inactive, chunks := [], stopsIssued := 1 }
        RecEvent.autoStopTimer
      = { state := MRState.inactive, chunks := [], stopsIssued := 1 } :=
  ⟨autoStop_timer_stops_recording.2.1 [],
   autoStop_timer_stops_recording.2.2
     { state := MRState.inactive, chunks := [], stopsIssued := 1 } (by decide)⟩

/-- Counterexample to claim C4 as stated: two successive successful
startCamera calls from the initial state leave two live streams, not exactly
one — the prior stream is never released, its device handle is leaked. -/
theorem startCamera_twice_leaks_counterexample :
    (startCamera (startCamera camInit)).liveStreams = [0, 1] ∧
    (startCamera (startCamera camInit)).liveStreams.length = 2 ∧
    (2 : Nat) ≠ 1 := by
  refine ⟨rfl, rfl, by decide⟩

/-- Claim C4 (amended): calling startCamera again while a stream is active
binds the newly acquired stream to the preview and sets cameraActive, but
does not release the prior stream: the previously live streams all remain
live, so each restart leaks the prior device handle and only the preview
binding is replaced. -/
theorem startCamera_binds_without_release :
    ∀ c : CameraState,
      (startCamera c).boundStream = some c.nextStreamId ∧
      (startCamera c).cameraActive = true ∧
      (startCamera c).liveStreams = c.liveStreams ++ [c.nextStreamId] :=
  fun _ => ⟨rfl, rfl, rfl⟩

/-- Claim C5: clicking the record button is a no-op — no state change and no
recorder created — whenever a recording is already active, or no stream is
bound, or a detection request from a prior clip is still in flight; and in
every session state reachable through the program's events at most one
MediaRecorder is recording, so at most one Recording is ever active per
CaptureSession. -/
theorem startRecording_guarded_single_recording :
    (∀ s : Session,
        s.isRecording = true ∨ s.streamBound = false ∨ s.isProcessing = true →
        sessionStep s SessionEvent.clickRecord = s) ∧
    (∀ s : Session, ReachableSession s → s.activeRecorders ≤ 1) := by
  constructor
  · intro s h
    simp only [sessionStep]
    by_cases hd : recordDisabled s = true
    · simp [hd]
    · have hd2 : recordDisabled s = false := by simpa using hd
      simp only [recordDisabled, Bool.or_eq_false_iff] at hd2
      rcases h with h | h | h
      · rw [h] at hd2
        exact absurd hd2.1.2 (by decide)
      · simp [hd, startRecordingSession, h]
      · rw [h] at hd2
        exact absurd hd2.2 (by decide)
  · intro s h
    have hinv := reachable_recorderInv s h
    rw [recorderInv] at hinv
    cases hrec : s.isRecording <;> rw [hrec] at hinv <;> simp [hinv]

/-- Witness for C5 at concrete inputs: in the initial state no stream is
bound, so a click changes nothing, and the initial state (reachable by
construction) has at most one active recording. -/
theorem startRecording_guarded_single_recording_witness :
    sessionStep initSession SessionEvent.clickRecord = initSession ∧
    initSession.activeRecorders ≤ 1 :=
  ⟨startRecording_guarded_single_recording.1 initSession (Or.inr (Or.inl rfl)),
   startRecording_guarded_single_recording.2 initSession ReachableSession.init⟩

/-- Claim C6: for every non-empty result text, when the cloud TTS call
returns a non-success status or throws a network-level error, the local
speech-synthesis facility is invoked with the same text (and the cloud audio
is never played); when the facility is unavailable the call produces no
audible output at all; and in no case is an error surfaced to the user. -/
theorem speak_cloud_failure_falls_back_locally :
    ∀ (s : Session) (tts : TTSOutcome) (synthAvailable : Bool),
      s.result ≠ "" →
      tts = TTSOutcome.response false ∨ tts = TTSOutcome.networkError →
      (speakResult s tts synthAvailable).2.localUtterances
        = (if synthAvailable then [s.result] else []) ∧
      (speakResult s tts synthAvailable).2.cloudPlays = 0 ∧
      (speakResult s tts synthAvailable).2.errorsSurfaced = 0 := by
  intro s tts synthAvailable hres hfail
  rcases hfail with h | h <;> subst h <;> simp [speakResult, hres]

/-- Witness for C6 at concrete inputs: with stored result "Thank you" and a
401-style rejected cloud call, the local facility is handed exactly
"Thank you" and no error is surfaced. -/
theorem speak_cloud_failure_falls_back_locally_witness :
    (speakResult { initSession with result := "Thank you" }
        (TTSOutcome.response false) true).2.localUtterances = ["Thank you"] ∧
    (speakResult { initSession with result := "Thank you" }
        (TTSOutcome.response false) true).2.errorsSurfaced = 0 := by
  have h := speak_cloud_failure_falls_back_locally
    { initSession with result := "Thank you" } (TTSOutcome.response false) true
    (by decide) (Or.inl rfl)
  exact ⟨h.1, h.2.2⟩

/-- Counterexample to claim C7 as stated: a non-success (HTTP 500 style)
response whose body nevertheless parses with a signs field is not treated as
an error — getSupportedSigns returns those signs, not the empty set. -/
theorem getSupportedSigns_error_status_counterexample :
    SignLanguageAPI.getSupportedSigns
        (.response false (some { signs := some ["water"] })) = some ["water"] ∧
    some ["water"] ≠ some ([] : List String) := by
  refine ⟨rfl, by decide⟩

/-- Claim C7 (amended): getSupportedSigns never throws; a transport failure
or a body that fails to parse yields the empty set (so a timed-out fetch
leaves the set empty with no crash); but the HTTP status code is never
examined — a response whose body parses is handled identically whatever its
status, with the signs field returned as-is (an absent field yields the
undefined value rather than the empty set). -/
theorem getSupportedSigns_swallows_thrown_errors :
    (∀ body : Option SupportedSignsBody,
        SignLanguageAPI.getSupportedSigns (.response false body)
          = SignLanguageAPI.getSupportedSigns (.response true body)) ∧
    SignLanguageAPI.getSupportedSigns .networkError = some [] ∧
    (∀ ok : Bool, SignLanguageAPI.getSupportedSigns (.response ok none) = some []) ∧
    (∀ (ok : Bool) (b : SupportedSignsBody),
        SignLanguageAPI.getSupportedSigns (.response ok (some b)) = b.signs) :=
  ⟨fun body => by cases body <;> rfl, rfl, fun _ => rfl, fun _ b => rfl⟩

/-- Claim C8: calling speakResult with an empty stored result is a complete
no-op: the session state is unchanged and no side effect occurs — in
particular no network call and no audio, cloud or local. -/
theorem speak_empty_text_noop :
    ∀ (s : Session) (tts : TTSOutcome) (synthAvailable : Bool),
      s.result = "" →
      speakResult s tts synthAvailable = (s, noSpeakEffect) := by
  intro s tts synthAvailable h
  simp [speakResult, h]

/-- Witness for C8 at concrete inputs: the initial session has an empty
result, and speaking it changes nothing and produces no effect. -/
theorem speak_empty_text_noop_witness :
    speakResult initSession (TTSOutcome.response true) true
      = (initSession, noSpeakEffect) :=
  speak_empty_text_noop initSession (TTSOutcome.response true) true rfl

/-- Claim C9: for every non-empty-text speakResult invocation, the isSpeaking
flag is written exactly twice — set to true before the speech attempt begins
and reset to false at the end — on every exit path alike (primary success,
primary rejection with fallback, and thrown network error), and the final
session state has isSpeaking cleared. -/
theorem speak_isSpeaking_set_and_cleared :
    ∀ (s : Session) (tts : TTSOutcome) (synthAvailable : Bool),
      s.result ≠ "" →
      (speakResult s tts synthAvailable).2.speakingWrites = [true, false] ∧
      (speakResult s tts synthAvailable).1.isSpeaking = false := by
  intro s tts synthAvailable h
  cases tts with
  | networkError => simp [speakResult, h]
  | response ok => cases ok <;> simp [speakResult, h]

/-- Witness for C9 at concrete inputs: a non-empty result spoken through a
successful cloud call writes the flag true then false and ends cleared. -/
theorem speak_isSpeaking_set_and_cleared_witness :
    (speakResult { initSession with result := "Yes" }
        (TTSOutcome.response true) true).2.speakingWrites = [true, false] ∧
    (speakResult { initSession with result := "Yes" }
        (TTSOutcome.response true) true).1.isSpeaking = false :=
  speak_isSpeaking_set_and_cleared { initSession with result := "Yes" }
    (TTSOutcome.response true) true (by decide)

/-- Claim C10: checkHealth's verdict depends only on whether the body parses
to a record whose status field equals "healthy" — the HTTP status code is
never examined, so a non-success response with a healthy body yields true
(Up) while a success response whose body lacks the field or fails to parse
yields false (Down); a network failure also yields false, and the function is
total, so it never throws. -/
theorem checkHealth_ignores_status_code :
    (∀ (ok1 ok2 : Bool) (body : Option HealthBody),
        SignLanguageAPI.checkHealth (.response ok1 body)
          = SignLanguageAPI.checkHealth (.response ok2 body)) ∧
    SignLanguageAPI.checkHealth (.response false (some { status := some "healthy" })) = true ∧
    SignLanguageAPI.checkHealth (.response true (some { status := some "ok" })) = false ∧
    SignLanguageAPI.checkHealth (.response true (some { status := none })) = false ∧
    SignLanguageAPI.checkHealth (.response true none) = false ∧
    SignLanguageAPI.checkHealth .networkError = false :=
  ⟨fun ok1 ok2 body => by cases body <;> rfl, by decide, by decide, rfl, rfl, rfl⟩

end CareLink
